import Mathlib

/-!
Shallow embedding of the scheduled synchronization and notification
subsystem of the Skipp mobile client (source files
`utils/backgroundService.ts`, `utils/attendanceService.ts`,
`utils/versionTracker.ts`, `utils/sessionManager.ts` and the foreground
session manager variant).  The persistent key-value store
(AsyncStorage) is modelled as an association list from string keys to
stored values; asynchronous functions become pure state-passing
functions; the five remote gateway calls become outcome parameters
(fulfilled payload or rejection reason), matching the result shape of
the Promise.allSettled combinator used by the code.
-/

set_option autoImplicit false

namespace Skipp

/-- One row of the attendance payload as delivered by
getStudentAttendance: a positional array of strings
(course code at index 0, percentage at index 5). -/
abbrev AttRow := List String

/-- One exam record as delivered by getExamSchedule.  The source reads
each field through a pair of alternative spellings
(exam.COURSE_CODE or exam.course_code, and so on); the record models
the resulting field value. -/
structure Exam where
  courseCode : String
  date : String
  time : String
deriving DecidableEq

/-- A formatted course record handed to the low-attendance
notification pass: built from an attendance row by taking index 0 as
courseCode and index 5 as percentage. -/
structure Course where
  courseCode : String
  percentage : String
deriving DecidableEq

/-- A cached payload.  The cache stores JSON-serialised data; since
JSON round-trips, the payload is modelled structurally: attendance
rows, exam lists, the greeting text, and the opaque internals/CGPA
arrays (kept as an uninterpreted string). -/
inductive Payload
  | attendanceRows (rows : List AttRow)
  | examList (exams : List Exam)
  | text (value : String)
  | blob (value : String)
deriving DecidableEq

/-- A value held by the persistent key-value store: either a plain
string (markers, preferences, credentials) or a cache record
written as JSON.stringify of a data/timestamp/type object.  The two
shapes never compare equal to each other under the string comparisons
the code performs, because the JSON text of a record starts with a
brace while every marker / preference literal does not. -/
inductive StoredVal
  | str (value : String)
  | entry (payload : Payload) (timestamp : Int)
deriving DecidableEq

/-- The persistent key-value store (AsyncStorage), newest binding
first. -/
abbrev Store := List (String × StoredVal)

/-- AsyncStorage.getItem: the most recent value bound to a key. -/
def Store.get : Store → String → Option StoredVal
  | [], _ => none
  | (k', v) :: rest, k => if k = k' then some v else Store.get rest k

/-- AsyncStorage.setItem. -/
def Store.set (s : Store) (k : String) (v : StoredVal) : Store :=
  (k, v) :: s

/-- AsyncStorage.multiRemove. -/
def Store.removeMany (s : Store) (ks : List String) : Store :=
  s.filter (fun kv => !(ks.contains kv.1))

/-- Reads a key whose value the code goes on to compare against a
string literal (markers, preferences).  A cache record stored at the
key would read back as its JSON text, which never equals any of the
compared literals, so it is treated as no string value. -/
def Store.getStr (s : Store) (k : String) : Option String :=
  match s.get k with
  | some (StoredVal.str t) => some t
  | _ => none

/-- JavaScript truthiness of an AsyncStorage.getItem result: null and
the empty string are falsy; any other string (including the JSON text
of a cache record) is truthy. -/
def jsTruthyVal : Option StoredVal → Bool
  | none => false
  | some (StoredVal.str t) => t ≠ ""
  | some (StoredVal.entry _ _) => true

/-- securityUtils.sanitizeInput: strips angle brackets. -/
def sanitizeInput (input : String) : String :=
  String.mk (input.data.filter (fun c => c ≠ '<' ∧ c ≠ '>'))

/-- The numeric value of a run of decimal digit characters. -/
def digitsVal (cs : List Char) : Nat :=
  cs.foldl (fun n c => n * 10 + (c.toNat - 48)) 0

/-- JavaScript parseInt on the digit strings this code stores
(timestamps, date components): the longest leading run of decimal
digits, or failure (NaN) when there is none.  Signs, whitespace and
radix prefixes never occur in the stored data. -/
def jsParseInt (str : String) : Option Nat :=
  let ds := str.data.takeWhile Char.isDigit
  if ds.isEmpty then none else some (digitsVal ds)

/-- A finite nonnegative decimal number, the exact value
mantissa / 10 ^ scale.  This represents the numbers produced by
parseFloat on the percentage strings this code processes; values
within double precision compare against 80 exactly. -/
structure JsNumber where
  mantissa : Nat
  scale : Nat
deriving DecidableEq

/-- The rational value of a decimal number. -/
def JsNumber.toRat (d : JsNumber) : ℚ :=
  (d.mantissa : ℚ) / (10 : ℚ) ^ d.scale

/-- Comparison of a decimal number against a natural bound, phrased
over the mantissa so that it evaluates by kernel reduction. -/
def JsNumber.ltNat (d : JsNumber) (n : Nat) : Bool :=
  d.mantissa < n * 10 ^ d.scale

/-- JavaScript parseFloat on the percentage strings this code
processes: a decimal literal digits[.digits], or failure (NaN).
Exponents, signs and a leading bare dot never occur in the attendance
percentages. -/
def jsParseFloat (str : String) : Option JsNumber :=
  let ds := str.data.takeWhile Char.isDigit
  if ds.isEmpty then none
  else
    match str.data.drop ds.length with
    | '.' :: rest =>
      let fs := rest.takeWhile Char.isDigit
      if fs.isEmpty then some { mantissa := digitsVal ds, scale := 0 }
      else
        some { mantissa := digitsVal ds * 10 ^ fs.length + digitsVal fs,
               scale := fs.length }
    | _ => some { mantissa := digitsVal ds, scale := 0 }

/-- JavaScript String.prototype.split with a one-character separator
(the only shape of separator this code uses). -/
def splitOnChar (sep : Char) : List Char → List (List Char)
  | [] => [[]]
  | c :: rest =>
    let r := splitOnChar sep rest
    if c = sep then [] :: r
    else
      match r with
      | [] => [[c]]
      | g :: gs => (c :: g) :: gs

/-- JavaScript String.prototype.trim. -/
def jsTrim (cs : List Char) : List Char :=
  ((cs.dropWhile Char.isWhitespace).reverse.dropWhile Char.isWhitespace).reverse

/-- The base64 alphabet used by atob and btoa. -/
def base64Alphabet : List Char :=
  "ABCDEFGHIJKLMNOPQRSTUVWXYZabcdefghijklmnopqrstuvwxyz0123456789+/".data

/-- Index of a character in the base64 alphabet. -/
def b64IndexOf (c : Char) : Option Nat :=
  base64Alphabet.findIdx? (· = c)

/-- Converts a stream of 6-bit groups into 8-bit bytes, dropping the
trailing partial group. -/
def b64Sextets (acc accBits : Nat) : List Nat → List Nat
  | [] => []
  | v :: rest =>
    let acc' := acc * 64 + v
    let bits := accBits + 6
    if 8 ≤ bits then
      (acc' / 2 ^ (bits - 8)) :: b64Sextets (acc' % 2 ^ (bits - 8)) (bits - 8) rest
    else
      b64Sextets acc' bits rest

/-- JavaScript atob: decodes a base64 string to a byte string, failing
(throwing InvalidCharacterError) on input that is not well-formed
base64 — in particular on the JSON text of a cache record, whose
opening brace is not a base64 character. -/
def atob (input : String) : Option String :=
  if input.length % 4 ≠ 0 then none
  else
    let body := (input.data.reverse.dropWhile (· = '=')).reverse
    match body.mapM b64IndexOf with
    | none => none
    | some vs => some (String.mk ((b64Sextets 0 0 vs).map Char.ofNat))

/-- Encodes a byte list in base64 with padding. -/
def b64EncodeBytes : List Nat → List Char
  | [] => []
  | [b0] =>
    [base64Alphabet.getD (b0 / 4) 'A', base64Alphabet.getD (b0 % 4 * 16) 'A', '=', '=']
  | [b0, b1] =>
    [base64Alphabet.getD (b0 / 4) 'A', base64Alphabet.getD (b0 % 4 * 16 + b1 / 16) 'A',
     base64Alphabet.getD (b1 % 16 * 4) 'A', '=']
  | b0 :: b1 :: b2 :: rest =>
    base64Alphabet.getD (b0 / 4) 'A' ::
    base64Alphabet.getD (b0 % 4 * 16 + b1 / 16) 'A' ::
    base64Alphabet.getD (b1 % 16 * 4 + b2 / 64) 'A' ::
    base64Alphabet.getD (b2 % 64) 'A' :: b64EncodeBytes rest

/-- JavaScript btoa: encodes a byte string in base64, failing
(throwing) when a character is outside the Latin-1 range. -/
def btoa (input : String) : Option String :=
  if input.data.any (fun c => 256 ≤ c.toNat) then none
  else some (String.mk (b64EncodeBytes (input.data.map Char.toNat)))

/-- Applies atob to a stored value: the JSON text of a cache record is
never valid base64 (it starts with a brace), so it fails to decode. -/
def storedAtob : StoredVal → Option String
  | StoredVal.str a => atob a
  | StoredVal.entry _ _ => none

/-- The outcome of one settled promise, as reported by
Promise.allSettled: fulfilled with a value or rejected with a
reason. -/
inductive Outcome (α : Type)
  | fulfilled (value : α)
  | rejected (reason : String)
deriving DecidableEq

/-- The settled outcomes of the five remote gateway calls issued by a
refresh cycle (attendance, exam schedule, user greeting, internals,
CGPA).  The payloads whose structure the notification passes inspect
are kept structured; internals and CGPA stay opaque. -/
structure Outcomes where
  attendance : Outcome (List AttRow)
  examSchedule : Outcome (List Exam)
  greeting : Outcome String
  internals : Outcome Payload
  cgpa : Outcome Payload
deriving DecidableEq

/-- The five cached data kinds of the dataCache object. -/
inductive Kind
  | attendance
  | examSchedule
  | internals
  | cgpa
  | greeting
deriving DecidableEq

/-- dataCache cache keys (ATTENDANCE_DATA, EXAM_SCHEDULE,
INTERNALS_DATA, CGPA_DATA, USER_GREETING). -/
def cacheKey : Kind → String
  | Kind.attendance => "nimora_attendance_data"
  | Kind.examSchedule => "nimora_exam_schedule"
  | Kind.internals => "nimora_internals_data"
  | Kind.cgpa => "nimora_cgpa_data"
  | Kind.greeting => "nimora_user_greeting"

/-- The LAST_UPDATE cache key. -/
def lastUpdateKey : String := "nimora_last_update"

/-- dataCache.setAttendanceData and its four siblings: stores the
payload with timestamp Date.now under the kind's key, and (for every
kind except the greeting, whose setter omits it) refreshes
LAST_UPDATE. -/
def dataCache.set (k : Kind) (p : Payload) (now : Int) (s : Store) : Store :=
  let s1 := s.set (cacheKey k) (StoredVal.entry p now)
  match k with
  | Kind.greeting => s1
  | _ => s1.set lastUpdateKey (StoredVal.str (toString now))

/-- dataCache.getAttendanceData and its four siblings: returns the
payload when an entry exists and is less than 24 hours old, otherwise
null; a parse failure (a plain string stored under the key) also
yields null through the catch handler. -/
def dataCache.get (k : Kind) (now : Int) (s : Store) : Option Payload :=
  match s.get (cacheKey k) with
  | some (StoredVal.entry p ts) =>
    if now - ts < 24 * 60 * 60 * 1000 then some p else none
  | _ => none

/-- dataCache.clearAllCache: removes the five cache entries and
LAST_UPDATE. -/
def clearAllCache (s : Store) : Store :=
  s.removeMany
    ["nimora_attendance_data", "nimora_exam_schedule", "nimora_internals_data",
     "nimora_cgpa_data", "nimora_user_greeting", "nimora_last_update"]

/-- secureStorage.getCredentials: reads nimora_rollno and nimora_auth,
requires both truthy, and base64-decodes the auth value; a decode
failure is caught and yields null. -/
def secureStorage.getCredentials (s : Store) : Option (String × String) :=
  match s.get "nimora_rollno", s.get "nimora_auth" with
  | some rv, some av =>
    if jsTruthyVal (some rv) && jsTruthyVal (some av) then
      match rv with
      | StoredVal.str r => (storedAtob av).map (fun p => (r, p))
      | StoredVal.entry _ _ => none
    else none
  | _, _ => none

/-- Credential resolution at the head of fetchAndCacheAllData: use the
rollNo/password arguments when both are truthy (sanitised), otherwise
fall back to secure storage. -/
def fetchCredentials (args : Option (String × String)) (s : Store) :
    Option (String × String) :=
  match args with
  | some (r, p) =>
    if r ≠ "" && p ≠ "" then some (sanitizeInput r, sanitizeInput p)
    else secureStorage.getCredentials s
  | none => secureStorage.getCredentials s

/-- The settled outcome of the gateway call for a kind, with its value
wrapped as the payload the cache write would store. -/
def Outcomes.payloadAt (o : Outcomes) : Kind → Outcome Payload
  | Kind.attendance =>
    match o.attendance with
    | Outcome.fulfilled v => Outcome.fulfilled (Payload.attendanceRows v)
    | Outcome.rejected r => Outcome.rejected r
  | Kind.examSchedule =>
    match o.examSchedule with
    | Outcome.fulfilled v => Outcome.fulfilled (Payload.examList v)
    | Outcome.rejected r => Outcome.rejected r
  | Kind.greeting =>
    match o.greeting with
    | Outcome.fulfilled v => Outcome.fulfilled (Payload.text v)
    | Outcome.rejected r => Outcome.rejected r
  | Kind.internals => o.internals
  | Kind.cgpa => o.cgpa

/-- The caching tail of fetchAndCacheAllData: each of the five settled
outcomes is inspected independently, in source order, and every
fulfilled value is written to the cache under its kind; a rejected
outcome is only logged. -/
def cacheSettled (o : Outcomes) (now : Int) (s : Store) : Store :=
  let s1 := match o.attendance with
    | Outcome.fulfilled v => dataCache.set Kind.attendance (Payload.attendanceRows v) now s
    | Outcome.rejected _ => s
  let s2 := match o.examSchedule with
    | Outcome.fulfilled v => dataCache.set Kind.examSchedule (Payload.examList v) now s1
    | Outcome.rejected _ => s1
  let s3 := match o.greeting with
    | Outcome.fulfilled v => dataCache.set Kind.greeting (Payload.text v) now s2
    | Outcome.rejected _ => s2
  let s4 := match o.internals with
    | Outcome.fulfilled v => dataCache.set Kind.internals v now s3
    | Outcome.rejected _ => s3
  match o.cgpa with
  | Outcome.fulfilled v => dataCache.set Kind.cgpa v now s4
  | Outcome.rejected _ => s4

/-- fetchAndCacheAllData: resolves credentials, throwing when none are
available; then issues the five gateway calls through
Promise.allSettled and caches every fulfilled result.  Gateway
failures are settled, so the credential check is the only error
exit. -/
def fetchAndCacheAllData (args : Option (String × String)) (o : Outcomes)
    (now : Int) (s : Store) : Except String Store :=
  match fetchCredentials args s with
  | none => Except.error "No credentials available"
  | some _ => Except.ok (cacheSettled o now s)

/-- The two daily refresh windows. -/
inductive Sched
  | midnight
  | afternoon
deriving DecidableEq

/-- The persisted refresh-marker key last_(scheduleType)_refresh. -/
def markerKey : Sched → String
  | Sched.midnight => "last_midnight_refresh"
  | Sched.afternoon => "last_afternoon_refresh"

/-- hasRefreshedToday: the stored marker equals today's
toDateString. -/
def hasRefreshedToday (sched : Sched) (todayStr : String) (s : Store) : Bool :=
  s.getStr (markerKey sched) = some todayStr

/-- markRefreshCompleted: writes today's toDateString under the
marker key. -/
def markRefreshCompleted (sched : Sched) (todayStr : String) (s : Store) : Store :=
  s.set (markerKey sched) (StoredVal.str todayStr)

/-- The schedule a run in a window belongs to, as both entry points
determine it: midnight when the hour is 0, afternoon otherwise (the
afternoon branch is only reached at hour 17). -/
def schedOfHour (hour : Nat) : Sched :=
  if hour == 0 then Sched.midnight else Sched.afternoon

/-- isScheduledTime in the OS background task
(backgroundService.ts): 12:00-12:30 AM or 5:00-5:30 PM. -/
def isScheduledTime (hour minute : Nat) : Bool :=
  (hour == 0 && minute ≤ 30) || (hour == 17 && minute ≤ 30)

/-- SessionManager.isScheduledRefreshTime in the foreground poll:
12:00-12:05 AM or 5:00-5:05 PM. -/
def isScheduledRefreshTime (hour minute : Nat) : Bool :=
  (hour == 0 && minute ≤ 5) || (hour == 17 && minute ≤ 5)

/-- The window classification of an instant. -/
inductive Window
  | noWindow
  | midnight
  | afternoon
deriving DecidableEq

/-- The background task's window decision: isScheduledTime followed by
the hour test choosing midnight or afternoon. -/
def backgroundWindow (hour minute : Nat) : Window :=
  if isScheduledTime hour minute then
    if hour == 0 then Window.midnight else Window.afternoon
  else Window.noWindow

/-- A calendar date as the component triple
(getFullYear, getMonth, getDate). -/
structure SimpleDate where
  year : Int
  month : Int
  day : Int
deriving DecidableEq

/-- NotificationService.parseExamDate: splits a DD-MM-YY string on
dashes and builds the date new Date(2000+yy, mm-1, dd).  A component
that fails to parse yields an invalid date, which the subsequent
same-day comparisons treat as matching nothing, so it is modelled as
failure; component triples outside the calendar range are compared
without the normalisation the Date constructor would apply. -/
def parseExamDate (dateString : String) : Option SimpleDate :=
  match splitOnChar '-' dateString.data with
  | [p0, p1, p2] =>
    match jsParseInt (String.mk p0), jsParseInt (String.mk p1),
        jsParseInt (String.mk p2) with
    | some d, some m, some y =>
      some { year := 2000 + (y : Int), month := (m : Int) - 1, day := (d : Int) }
    | _, _, _ => none
  | _ => none

/-- The readings a run takes from the system clock: getHours,
getMinutes, toDateString, the component triples of today and of
tomorrow, and Date.now in milliseconds. -/
structure Clock where
  hour : Nat
  minute : Nat
  todayStr : String
  today : SimpleDate
  tomorrow : SimpleDate
  epochMs : Int
deriving DecidableEq

/-- A local notification requested from the OS, by category and
content. -/
inductive Notif
  | lowAttendance (userName courseCode percentage : String)
  | examReminder (userName courseCode date time : String)
  | examDay (userName courseCode time : String)
deriving DecidableEq

/-- The filter of the low-attendance pass: skips a course whose
percentage field is falsy (the formatted records carry no positional
fallback), then keeps it when the parsed percentage is a number below
80. -/
def lowAttendanceFilterPred (c : Course) : Bool :=
  if c.percentage = "" then false
  else
    match jsParseFloat c.percentage with
    | none => false
    | some q => q.ltNat 80

/-- The low-attendance courses selected from an attendance payload. -/
def lowAttendanceCourses (attendanceData : List Course) : List Course :=
  attendanceData.filter lowAttendanceFilterPred

/-- The dedup marker key of the low-attendance category. -/
def lowAttendanceMarkerKey : String := "last_low_attendance_notification"

/-- NotificationService.checkAndSendLowAttendanceNotifications: gated
on the notifications_enabled preference, non-empty input, a
non-blank user name, a non-empty low-attendance selection and the
day-coarse dedup marker; when all gates pass it emits one notification
per low course and then writes today's marker. -/
def checkAndSendLowAttendanceNotifications (attendanceData : List Course)
    (userName : String) (todayStr : String) (s : Store) : Store × List Notif :=
  if s.getStr "notifications_enabled" = some "false" then (s, [])
  else if attendanceData.isEmpty then (s, [])
  else if (jsTrim userName.data).isEmpty then (s, [])
  else
    let low := lowAttendanceCourses attendanceData
    if low.isEmpty then (s, [])
    else if s.getStr lowAttendanceMarkerKey = some todayStr then (s, [])
    else
      (s.set lowAttendanceMarkerKey (StoredVal.str todayStr),
       low.map (fun c => Notif.lowAttendance userName c.courseCode c.percentage))

/-- The validity filter of the exam pass: all three fields truthy. -/
def validExamFilter (e : Exam) : Bool :=
  e.courseCode ≠ "" && e.date ≠ "" && e.time ≠ ""

/-- The per-exam dedup key
exam_notification_(courseCode)_(date). -/
def examKeyStr (courseCode date : String) : String :=
  "exam_notification_" ++ courseCode ++ "_" ++ date

/-- The dedup marker key of the day-before exam reminder category. -/
def examReminderMarkerKey : String := "last_exam_reminder_notification"

/-- The exam-day loop of checkAndSendExamNotifications: for each valid
exam dated today whose per-exam marker is not yet truthy, emits the
exam-day notification and writes the marker before moving on. -/
def examDayLoop (userName : String) (today : SimpleDate) :
    List Exam → Store → Store × List Notif
  | [], s => (s, [])
  | e :: rest, s =>
    if parseExamDate e.date = some today then
      if jsTruthyVal (s.get (examKeyStr e.courseCode e.date)) then
        examDayLoop userName today rest s
      else
        let s1 := s.set (examKeyStr e.courseCode e.date) (StoredVal.str "sent")
        let (s2, ns) := examDayLoop userName today rest s1
        (s2, Notif.examDay userName e.courseCode e.time :: ns)
    else examDayLoop userName today rest s

/-- NotificationService.checkAndSendExamNotifications: gated on the
exam_notifications_enabled preference, non-empty input, a non-blank
user name and a non-empty validity selection; then sends day-before
reminders for tomorrow's exams under a day-coarse marker, and runs
the per-exam exam-day loop. -/
def checkAndSendExamNotifications (examData : List Exam) (userName : String)
    (clk : Clock) (s : Store) : Store × List Notif :=
  if s.getStr "exam_notifications_enabled" = some "false" then (s, [])
  else if examData.isEmpty then (s, [])
  else if (jsTrim userName.data).isEmpty then (s, [])
  else
    let validExams := examData.filter validExamFilter
    if validExams.isEmpty then (s, [])
    else
      let tomorrowExams :=
        validExams.filter (fun e => parseExamDate e.date = some clk.tomorrow)
      let reminderStep : Store × List Notif :=
        if tomorrowExams.isEmpty then (s, [])
        else if s.getStr examReminderMarkerKey = some clk.todayStr then (s, [])
        else
          (s.set examReminderMarkerKey (StoredVal.str clk.todayStr),
           tomorrowExams.map (fun e =>
             Notif.examReminder userName e.courseCode e.date e.time))
      let dayStep := examDayLoop userName clk.today validExams reminderStep.1
      (dayStep.1, reminderStep.2 ++ dayStep.2)

/-- Extraction of the first name from a greeting string:
greeting.split(',')[1]?.trim().split(' ')[0] with the fallback
'Student' when the result is absent or empty. -/
def jsUserName (greeting : String) : String :=
  match (splitOnChar ',' greeting.data).get? 1 with
  | none => "Student"
  | some part =>
    let name := (splitOnChar ' ' (jsTrim part)).headD []
    if name.isEmpty then "Student" else String.mk name

/-- Conversion of raw attendance rows into notification course
records: keep arrays of length at least 6, take index 0 as courseCode
and index 5 as percentage, and keep records with both fields
truthy. -/
def formatAttendanceRows (attendanceData : List AttRow) : List Course :=
  ((attendanceData.filter (fun row => decide (6 ≤ row.length))).map
      (fun row => Course.mk (row.getD 0 "") (row.getD 5 ""))).filter
    (fun c => c.courseCode ≠ "" && c.percentage ≠ "")

/-- sendAttendanceNotifications in the background task: re-fetches the
attendance payload (its settled outcome), formats it, and runs the
low-attendance pass on a non-empty result; a fetch failure is caught
and only logged. -/
def sendAttendanceNotificationsBg (o : Outcomes) (userName : String)
    (todayStr : String) (s : Store) : Store × List Notif :=
  match o.attendance with
  | Outcome.rejected _ => (s, [])
  | Outcome.fulfilled rows =>
    if rows.isEmpty then (s, [])
    else
      let formatted := formatAttendanceRows rows
      if formatted.isEmpty then (s, [])
      else checkAndSendLowAttendanceNotifications formatted userName todayStr s

/-- sendExamNotifications in the background task: re-fetches the exam
schedule (its settled outcome) and runs the exam pass on a non-empty
result; a fetch failure is caught and only logged. -/
def sendExamNotificationsBg (o : Outcomes) (userName : String) (clk : Clock)
    (s : Store) : Store × List Notif :=
  match o.examSchedule with
  | Outcome.rejected _ => (s, [])
  | Outcome.fulfilled exams =>
    if exams.isEmpty then (s, [])
    else checkAndSendExamNotifications exams userName clk s

/-- sendBackgroundNotifications: gated on the notifications_enabled
preference and on both stored credentials being truthy; decodes the
auth value, derives the user name from the greeting, then runs the
attendance pass followed by the exam pass.  A greeting failure (or an
auth value that fails to decode) aborts the whole routine through its
catch handler. -/
def sendBackgroundNotifications (o : Outcomes) (clk : Clock) (s : Store) :
    Store × List Notif :=
  if s.getStr "notifications_enabled" = some "false" then (s, [])
  else if ¬ (jsTruthyVal (s.get "nimora_rollno") && jsTruthyVal (s.get "nimora_auth")) then
    (s, [])
  else
    match (s.get "nimora_auth").bind storedAtob with
    | none => (s, [])
    | some _password =>
      match o.greeting with
      | Outcome.rejected _ => (s, [])
      | Outcome.fulfilled g =>
        if g = "" then (s, [])
        else
          let userName := jsUserName g
          let att := sendAttendanceNotificationsBg o userName clk.todayStr s
          let ex := sendExamNotificationsBg o userName clk att.1
          (ex.1, att.2 ++ ex.2)

/-- The result of one invocation of a scheduled-refresh entry point:
the updated store, the notifications requested, and whether the
invocation reached the call of fetchAndCacheAllData (the actual
refresh body). -/
structure TaskResult where
  store : Store
  notifs : List Notif
  ran : Bool
deriving DecidableEq

/-- The OS-invoked background task body defined in
backgroundService.ts: gated on a truthy stored roll number, the
scheduled-time window and the per-window daily marker; then runs
fetchAndCacheAllData, writes the marker and sends the background
notifications.  A throw from the refresh body is caught before the
marker is written. -/
def backgroundRefreshTask (clk : Clock) (o : Outcomes) (s : Store) : TaskResult :=
  if ¬ jsTruthyVal (s.get "nimora_rollno") then { store := s, notifs := [], ran := false }
  else if ¬ isScheduledTime clk.hour clk.minute then
    { store := s, notifs := [], ran := false }
  else
    let sched := if clk.hour == 0 then Sched.midnight else Sched.afternoon
    if hasRefreshedToday sched clk.todayStr s then
      { store := s, notifs := [], ran := false }
    else
      match fetchAndCacheAllData none o clk.epochMs s with
      | Except.error _ => { store := s, notifs := [], ran := true }
      | Except.ok s1 =>
        let s2 := markRefreshCompleted sched clk.todayStr s1
        let sent := sendBackgroundNotifications o clk s2
        { store := sent.1, notifs := sent.2, ran := true }

/-- Modelled from the spec: isLoggedIn is imported from the
data-access layer but its definition is not among the provided
sources; per the spec the session layer checks persisted credential
presence only, so it is modelled as the presence of the stored
credential pair. -/
def isLoggedIn (s : Store) : Bool :=
  (secureStorage.getCredentials s).isSome

/-- getStoredCredentials (attendanceService.ts, migration variant):
returns the secure credentials when present; otherwise migrates a
truthy saved_rollno/saved_password pair into secure storage, removing
the old keys.  A btoa failure during migration is rethrown by
setCredentials after the roll number was already written, and the
catch handler then returns null. -/
def getStoredCredentialsM (s : Store) : Option (String × String) × Store :=
  match secureStorage.getCredentials s with
  | some c => (some c, s)
  | none =>
    match s.getStr "saved_rollno", s.getStr "saved_password" with
    | some r, some p =>
      if r ≠ "" && p ≠ "" then
        let s1 := s.set "nimora_rollno" (StoredVal.str r)
        match btoa p with
        | some b =>
          ((some (r, p)),
           (s1.set "nimora_auth" (StoredVal.str b)).removeMany
             ["saved_rollno", "saved_password"])
        | none => (none, s1)
      else (none, s)
    | _, _ => (none, s)

/-- The exam half of the notification block in
SessionManager.performScheduledRefresh: on a non-empty fetched exam
schedule, derives the user name from a fresh greeting (falling back to
'Student' on failure or an invalid value) and runs the exam pass;
earlier notifications are kept when the exam fetch fails. -/
def examSectionFg (o : Outcomes) (clk : Clock) (s : Store) (acc : List Notif) :
    Store × List Notif :=
  match o.examSchedule with
  | Outcome.rejected _ => (s, acc)
  | Outcome.fulfilled exams =>
    if exams.isEmpty then (s, acc)
    else
      let userName :=
        match o.greeting with
        | Outcome.fulfilled g => if g = "" then "Student" else jsUserName g
        | Outcome.rejected _ => "Student"
      let ex := checkAndSendExamNotifications exams userName clk s
      (ex.1, acc ++ ex.2)

/-- The notification block of SessionManager.performScheduledRefresh:
re-checks the login state and the stored credentials, fetches the
attendance payload and (on a non-empty result) the greeting, runs the
low-attendance pass on the formatted records, and then the exam
half.  A throw from the attendance or greeting fetch aborts the whole
block through its catch handler. -/
def foregroundNotificationBlock (o : Outcomes) (clk : Clock) (s : Store) :
    Store × List Notif :=
  if ¬ isLoggedIn s then (s, [])
  else
    match getStoredCredentialsM s with
    | (none, s1) => (s1, [])
    | (some (r, p), s1) =>
      if r = "" || p = "" then (s1, [])
      else
        match o.attendance with
        | Outcome.rejected _ => (s1, [])
        | Outcome.fulfilled rows =>
          if rows.isEmpty then examSectionFg o clk s1 []
          else
            match o.greeting with
            | Outcome.rejected _ => (s1, [])
            | Outcome.fulfilled g =>
              if g = "" then examSectionFg o clk s1 []
              else
                let userName := jsUserName g
                let formatted := formatAttendanceRows rows
                let att :=
                  if formatted.isEmpty then (s1, ([] : List Notif))
                  else
                    checkAndSendLowAttendanceNotifications formatted userName
                      clk.todayStr s1
                examSectionFg o clk att.1 att.2

/-- SessionManager.performScheduledRefresh (the foreground poll's
entry point): gated on the login state, the hour choosing the
midnight or afternoon schedule, and the per-window daily marker; then
runs fetchAndCacheAllData, writes the marker and runs the
notification block.  A throw from the refresh body is caught before
the marker is written. -/
def performScheduledRefresh (clk : Clock) (o : Outcomes) (s : Store) : TaskResult :=
  if ¬ isLoggedIn s then { store := s, notifs := [], ran := false }
  else
    match (if clk.hour == 0 then some Sched.midnight
           else if clk.hour == 17 then some Sched.afternoon else none) with
    | none => { store := s, notifs := [], ran := false }
    | some sched =>
      if hasRefreshedToday sched clk.todayStr s then
        { store := s, notifs := [], ran := false }
      else
        match fetchAndCacheAllData none o clk.epochMs s with
        | Except.error _ => { store := s, notifs := [], ran := true }
        | Except.ok s1 =>
          let s2 := markRefreshCompleted sched clk.todayStr s1
          let sent := foregroundNotificationBlock o clk s2
          { store := sent.1, notifs := sent.2, ran := true }

/-- The two execution contexts that drive the scheduled refresh: the
OS-invoked background task and the foreground five-minute poll. -/
inductive Caller
  | background
  | foreground
deriving DecidableEq

/-- One scheduled-refresh invocation from either context. -/
def invokeRefresh : Caller × Clock × Outcomes → Store → TaskResult
  | (Caller.background, clk, o), s => backgroundRefreshTask clk o s
  | (Caller.foreground, clk, o), s => performScheduledRefresh clk o s

/-- Runs a sequence of scheduled-refresh invocations, threading the
persistent store, and counts how many of them executed the refresh
body. -/
def runCalls : List (Caller × Clock × Outcomes) → Store → Store × Nat
  | [], s => (s, 0)
  | call :: rest, s =>
    let r := invokeRefresh call s
    let next := runCalls rest r.store
    (next.1, (if r.ran then 1 else 0) + next.2)

/-- The session state published to subscribers. -/
structure SessionState where
  isAuthenticated : Bool
  isLoading : Bool
  userRollNo : Option String := none
  lastLoginTime : Option Nat := none
deriving DecidableEq

/-- A remote interaction this subsystem can issue: one of the five
gateway data fetches, or a validation of the stored credentials
against the remote service (a test call made only by
validateSession). -/
inductive RemoteEffect
  | gatewayFetch (endpoint : String)
  | sessionValidation
deriving DecidableEq

/-- The gateway calls issued by one fetchAndCacheAllData cycle. -/
def gatewayCallSet : List RemoteEffect :=
  [RemoteEffect.gatewayFetch "attendance", RemoteEffect.gatewayFetch "exam-schedule",
   RemoteEffect.gatewayFetch "user-info", RemoteEffect.gatewayFetch "internals",
   RemoteEffect.gatewayFetch "cgpa"]

/-- The hard-coded current application version of the
VersionTracker. -/
def currentAppVersion : String := "1.0.0"

/-- versionTracker.handleAppUpdate: rate-limited to one check per 24
hours through nimora_last_update_check; when the stored version
differs from the current one and credentials are available, clears the
cache and refreshes all data, then stores the current version and the
check timestamp.  Every failure is caught, still updating version and
timestamp. -/
def handleAppUpdate (s : Store) (now : Int) (o : Outcomes) :
    Store × List RemoteEffect :=
  let lastCheck : Option Nat :=
    match s.getStr "nimora_last_update_check" with
    | some t => if t ≠ "" then jsParseInt t else none
    | none => none
  let shouldCheck : Bool :=
    match lastCheck with
    | none => true
    | some lc => decide (86400000 ≤ now - (lc : Int))
  if ¬ shouldCheck then (s, [])
  else
    let wasUpdated : Bool :=
      match s.getStr "nimora_app_version" with
      | none => false
      | some v => v ≠ "" && v ≠ currentAppVersion
    if ¬ wasUpdated then
      (s.set "nimora_last_update_check" (StoredVal.str (toString now)), [])
    else
      match getStoredCredentialsM s with
      | (none, s1) =>
        ((s1.set "nimora_app_version" (StoredVal.str currentAppVersion)).set
           "nimora_last_update_check" (StoredVal.str (toString now)), [])
      | (some (r, p), s1) =>
        let s2 := clearAllCache s1
        match fetchAndCacheAllData (some (r, p)) o now s2 with
        | Except.ok s3 =>
          ((s3.set "nimora_app_version" (StoredVal.str currentAppVersion)).set
             "nimora_last_update_check" (StoredVal.str (toString now)), gatewayCallSet)
        | Except.error _ =>
          ((s2.set "nimora_app_version" (StoredVal.str currentAppVersion)).set
             "nimora_last_update_check" (StoredVal.str (toString now)), [])

/-- The result of SessionManager.initializeSession: the published
session state, the updated store, and the remote interactions
issued. -/
structure InitResult where
  state : SessionState
  store : Store
  remoteCalls : List RemoteEffect
deriving DecidableEq

/-- SessionManager.initializeSession (sessionManager.ts, background
variant): checks only that a roll number is stored, reaching the
unauthenticated state without any remote interaction when it is not;
otherwise publishes the authenticated state from storage, runs the
app-update check and registers the background task (an OS
registration, not a remote call). -/
def initializeSession (s : Store) (now : Int) (o : Outcomes) : InitResult :=
  if ¬ jsTruthyVal (s.get "nimora_rollno") then
    { state := { isAuthenticated := false, isLoading := false }, store := s,
      remoteCalls := [] }
  else
    let rollNo := (s.getStr "nimora_rollno").getD ""
    let lastLogin : Option Nat :=
      match s.getStr "session_timestamp" with
      | some t => if t ≠ "" then jsParseInt t else none
      | none => none
    let upd := handleAppUpdate s now o
    { state :=
        { isAuthenticated := true, isLoading := false, userRollNo := some rollNo,
          lastLoginTime := lastLogin },
      store := upd.1, remoteCalls := upd.2 }

/-! ### Store lemmas -/

@[simp]
theorem Store.get_set (s : Store) (k : String) (v : StoredVal) (k' : String) :
    (s.set k v).get k' = if k' = k then some v else s.get k' := rfl

@[simp]
theorem Store.get_cons (k1 : String) (v1 : StoredVal) (rest : Store) (k : String) :
    Store.get ((k1, v1) :: rest) k = if k = k1 then some v1 else rest.get k := rfl

theorem Store.getStr_set (s : Store) (k : String) (v : StoredVal) (k' : String) :
    (s.set k v).getStr k' =
      if k' = k then
        (match v with | StoredVal.str t => some t | StoredVal.entry _ _ => none)
      else s.getStr k' := by
  unfold Store.getStr
  rw [Store.get_set]
  by_cases h : k' = k
  · rw [if_pos h, if_pos h]
    cases v <;> rfl
  · rw [if_neg h, if_neg h]

theorem Store.get_removeMany_ne (s : Store) (ks : List String) (k : String)
    (h : ks.contains k = false) : (s.removeMany ks).get k = s.get k := by
  induction s with
  | nil => rfl
  | cons kv rest ih =>
    obtain ⟨k1, v1⟩ := kv
    unfold Store.removeMany at ih ⊢
    rw [List.filter_cons]
    by_cases hk : ks.contains k1
    · have hne : k ≠ k1 := by
        intro he
        rw [he, hk] at h
        cases h
      simp only [hk, Bool.not_true, Bool.false_eq_true, if_false]
      rw [ih, Store.get_cons, if_neg hne]
    · simp only [Bool.not_eq_true] at hk
      simp only [hk, Bool.not_false, if_true]
      rw [Store.get_cons, Store.get_cons, ih]

/-- Key disjointness for the per-exam dedup keys: every string whose
first 18 characters differ from the exam_notification_ tag is distinct
from every per-exam key. -/
theorem examKeyStr_ne (c d k : String)
    (h : k.data.take 18 ≠ "exam_notification_".data) :
    examKeyStr c d ≠ k := by
  intro he
  apply h
  have hd : k.data = "exam_notification_".data ++ (c.data ++ ("_".data ++ d.data)) := by
    rw [← he]
    show ((("exam_notification_" ++ c) ++ "_") ++ d).data = _
    rw [String.data_append, String.data_append, String.data_append]
    simp [List.append_assoc]
  rw [hd]
  have hl : ("exam_notification_".data).length = 18 := by decide
  rw [← hl, List.take_left]

/-! ### Cache lemmas -/

theorem dataCache.get_set_self (k : Kind) (p : Payload) (now : Int) (s : Store) :
    dataCache.get k now (dataCache.set k p now s) = some p := by
  cases k <;>
    simp [dataCache.get, dataCache.set, Store.get_set, cacheKey, lastUpdateKey]

theorem dataCache.set_frame (kd : Kind) (p : Payload) (now : Int) (s : Store)
    (k : String) (h1 : k ≠ cacheKey kd) (h2 : k ≠ lastUpdateKey) :
    (dataCache.set kd p now s).get k = s.get k := by
  cases kd <;>
    simp [cacheKey, lastUpdateKey] at h1 h2 <;>
    simp [dataCache.set, cacheKey, lastUpdateKey, Store.get_set, h1, h2]

theorem cacheSettled_frame (o : Outcomes) (now : Int) (s : Store) (k : String)
    (h1 : k ≠ "nimora_attendance_data") (h2 : k ≠ "nimora_exam_schedule")
    (h3 : k ≠ "nimora_user_greeting") (h4 : k ≠ "nimora_internals_data")
    (h5 : k ≠ "nimora_cgpa_data") (h6 : k ≠ "nimora_last_update") :
    (cacheSettled o now s).get k = s.get k := by
  obtain ⟨oa, oe, og, oi, oc⟩ := o
  unfold cacheSettled
  cases oa <;> cases oe <;> cases og <;> cases oi <;> cases oc <;>
    simp [dataCache.set, cacheKey, lastUpdateKey, Store.get_set, h1, h2, h3, h4, h5, h6]

theorem cacheSettled_get (o : Outcomes) (now : Int) (s : Store) (kd : Kind) :
    (cacheSettled o now s).get (cacheKey kd) =
      match o.payloadAt kd with
      | Outcome.fulfilled p => some (StoredVal.entry p now)
      | Outcome.rejected _ => s.get (cacheKey kd) := by
  obtain ⟨oa, oe, og, oi, oc⟩ := o
  cases kd <;> unfold cacheSettled Outcomes.payloadAt <;>
    cases oa <;> cases oe <;> cases og <;> cases oi <;> cases oc <;>
      simp [dataCache.set, cacheKey, lastUpdateKey, Store.get_set]

theorem fetchAndCacheAllData_ok (args : Option (String × String)) (o : Outcomes)
    (now : Int) (s : Store) (cr : String × String)
    (h : fetchCredentials args s = some cr) :
    fetchAndCacheAllData args o now s = Except.ok (cacheSettled o now s) := by
  unfold fetchAndCacheAllData
  rw [h]

/-! ### Low-attendance pass lemmas -/

theorem checkLow_frame (data : List Course) (u todayStr : String) (s : Store)
    (k : String) (h : k ≠ lowAttendanceMarkerKey) :
    ((checkAndSendLowAttendanceNotifications data u todayStr s).1).get k = s.get k := by
  unfold checkAndSendLowAttendanceNotifications
  simp only []
  split_ifs <;> simp [Store.get_set, h]

theorem checkLow_of_marker (data : List Course) (u todayStr : String) (s : Store)
    (h : s.getStr lowAttendanceMarkerKey = some todayStr) :
    (checkAndSendLowAttendanceNotifications data u todayStr s).2 = [] := by
  unfold checkAndSendLowAttendanceNotifications
  simp only []
  split_ifs <;> simp_all

theorem checkLow_sent (data : List Course) (u todayStr : String) (s : Store)
    (h : (checkAndSendLowAttendanceNotifications data u todayStr s).2 ≠ []) :
    ((checkAndSendLowAttendanceNotifications data u todayStr s).1).getStr
      lowAttendanceMarkerKey = some todayStr := by
  unfold checkAndSendLowAttendanceNotifications at h ⊢
  simp only [] at h ⊢
  split_ifs at h ⊢ <;> simp_all [Store.getStr_set]

theorem checkLow_noSend (data : List Course) (u todayStr : String) (s : Store)
    (h : (checkAndSendLowAttendanceNotifications data u todayStr s).2 = []) :
    (checkAndSendLowAttendanceNotifications data u todayStr s).1 = s := by
  unfold checkAndSendLowAttendanceNotifications at h ⊢
  simp only [] at h ⊢
  split_ifs at h ⊢ <;> simp_all

theorem checkLow_sends (data : List Course) (u todayStr : String) (s : Store)
    (hen : s.getStr "notifications_enabled" ≠ some "false")
    (hd : data ≠ []) (hu : jsTrim u.data ≠ [])
    (hq : lowAttendanceCourses data ≠ [])
    (hm : s.getStr lowAttendanceMarkerKey ≠ some todayStr) :
    (checkAndSendLowAttendanceNotifications data u todayStr s).2 ≠ [] := by
  unfold checkAndSendLowAttendanceNotifications
  simp only []
  split_ifs <;> simp_all

/-! ### Exam pass lemmas -/

theorem examDayLoop_frame (u : String) (t : SimpleDate) (es : List Exam) (s : Store)
    (k : String) (h : k.data.take 18 ≠ "exam_notification_".data) :
    ((examDayLoop u t es s).1).get k = s.get k := by
  induction es generalizing s with
  | nil => rfl
  | cons e rest ih =>
    unfold examDayLoop
    simp only []
    split_ifs with h1 h2
    · exact ih s
    · have hkey : k ≠ examKeyStr e.courseCode e.date :=
        fun hke => examKeyStr_ne e.courseCode e.date k h hke.symm
      rcases hres :
        examDayLoop u t rest
          (s.set (examKeyStr e.courseCode e.date) (StoredVal.str "sent")) with ⟨s2, ns⟩
      have hih := ih (s.set (examKeyStr e.courseCode e.date) (StoredVal.str "sent"))
      rw [hres] at hih
      simp only [hres]
      simpa [Store.get_set, hkey] using hih
    · exact ih s

theorem checkExam_frame (examData : List Exam) (u : String) (clk : Clock) (s : Store)
    (k : String) (h1 : k ≠ examReminderMarkerKey)
    (h2 : k.data.take 18 ≠ "exam_notification_".data) :
    ((checkAndSendExamNotifications examData u clk s).1).get k = s.get k := by
  unfold checkAndSendExamNotifications
  simp only []
  split_ifs <;>
    first
      | rfl
      | (rw [examDayLoop_frame _ _ _ _ _ h2]; try simp [Store.get_set, h1])

/-! ### Notification routine frames and credential lemmas -/

theorem sendAttBg_frame (o : Outcomes) (u todayStr : String) (s : Store)
    (k : String) (hl : k ≠ lowAttendanceMarkerKey) :
    ((sendAttendanceNotificationsBg o u todayStr s).1).get k = s.get k := by
  unfold sendAttendanceNotificationsBg
  cases ha : o.attendance with
  | rejected r => simp
  | fulfilled rows =>
    simp only []
    split_ifs <;> first | rfl | exact checkLow_frame _ _ _ _ _ hl

theorem sendExamBg_frame (o : Outcomes) (u : String) (clk : Clock) (s : Store)
    (k : String) (hr : k ≠ examReminderMarkerKey)
    (he : k.data.take 18 ≠ "exam_notification_".data) :
    ((sendExamNotificationsBg o u clk s).1).get k = s.get k := by
  unfold sendExamNotificationsBg
  cases hx : o.examSchedule with
  | rejected r => simp
  | fulfilled exams =>
    simp only []
    split_ifs <;> first | rfl | exact checkExam_frame _ _ _ _ _ hr he

theorem sendBg_frame (o : Outcomes) (clk : Clock) (s : Store) (k : String)
    (hl : k ≠ lowAttendanceMarkerKey) (hr : k ≠ examReminderMarkerKey)
    (he : k.data.take 18 ≠ "exam_notification_".data) :
    ((sendBackgroundNotifications o clk s).1).get k = s.get k := by
  unfold sendBackgroundNotifications
  simp only []
  split_ifs <;> try rfl
  cases hb : ((s.get "nimora_auth").bind storedAtob) with
  | none => simp
  | some pw =>
    simp only []
    cases hg : o.greeting with
    | rejected r => simp
    | fulfilled g =>
      simp only []
      split_ifs <;> try rfl
      rw [sendExamBg_frame _ _ _ _ _ hr he, sendAttBg_frame _ _ _ _ _ hl]

theorem getCredentials_truthy (s : Store) (cr : String × String)
    (h : secureStorage.getCredentials s = some cr) :
    jsTruthyVal (s.get "nimora_rollno") = true ∧
    jsTruthyVal (s.get "nimora_auth") = true := by
  unfold secureStorage.getCredentials at h
  cases h1 : s.get "nimora_rollno" <;> cases h2 : s.get "nimora_auth" <;>
    rw [h1, h2] at h <;> simp_all

theorem getCredentials_congr (s s' : Store)
    (h1 : s'.get "nimora_rollno" = s.get "nimora_rollno")
    (h2 : s'.get "nimora_auth" = s.get "nimora_auth") :
    secureStorage.getCredentials s' = secureStorage.getCredentials s := by
  unfold secureStorage.getCredentials
  rw [h1, h2]

theorem getStoredCredentialsM_of_secure (s : Store) (cr : String × String)
    (h : secureStorage.getCredentials s = some cr) :
    getStoredCredentialsM s = (some cr, s) := by
  unfold getStoredCredentialsM
  rw [h]

theorem getStoredCredentialsM_frame (s : Store) (k : String)
    (h3 : k ≠ "nimora_rollno") (h4 : k ≠ "nimora_auth")
    (h5 : k ≠ "saved_rollno") (h6 : k ≠ "saved_password") :
    ((getStoredCredentialsM s).2).get k = s.get k := by
  have hc : (["saved_rollno", "saved_password"].contains k) = false := by
    simp [h5, h6]
  unfold getStoredCredentialsM
  cases hsec : secureStorage.getCredentials s with
  | some c => simp
  | none =>
    simp only []
    cases hr : s.getStr "saved_rollno" <;> cases hp : s.getStr "saved_password" <;>
      simp only []
    split_ifs <;> try rfl
    cases hb : btoa _ <;> simp only []
    · simp [Store.get_set, h3]
    · rw [Store.get_removeMany_ne _ _ _ hc]
      simp [Store.get_set, h3, h4]

theorem examSectionFg_frame (o : Outcomes) (clk : Clock) (s : Store)
    (acc : List Notif) (k : String) (hr : k ≠ examReminderMarkerKey)
    (he : k.data.take 18 ≠ "exam_notification_".data) :
    ((examSectionFg o clk s acc).1).get k = s.get k := by
  unfold examSectionFg
  cases hx : o.examSchedule with
  | rejected r => simp
  | fulfilled exams =>
    simp only []
    split_ifs <;> first | rfl | exact checkExam_frame _ _ _ _ _ hr he

theorem fgBlock_frame (o : Outcomes) (clk : Clock) (s : Store) (k : String)
    (hl : k ≠ lowAttendanceMarkerKey) (hr : k ≠ examReminderMarkerKey)
    (he : k.data.take 18 ≠ "exam_notification_".data)
    (h3 : k ≠ "nimora_rollno") (h4 : k ≠ "nimora_auth")
    (h5 : k ≠ "saved_rollno") (h6 : k ≠ "saved_password") :
    ((foregroundNotificationBlock o clk s).1).get k = s.get k := by
  have hcredframe := getStoredCredentialsM_frame s k h3 h4 h5 h6
  rcases hg : getStoredCredentialsM s with ⟨copt, s1⟩
  rw [hg] at hcredframe
  have hcf : s1.get k = s.get k := hcredframe
  unfold foregroundNotificationBlock
  rw [hg]
  rcases o with ⟨oa, oe, og, oi, oc⟩
  cases copt with
  | none =>
    simp only []
    split_ifs <;> first | rfl | exact hcf
  | some c =>
    rcases c with ⟨r, p⟩
    cases oa with
    | rejected ra =>
      simp only []
      split_ifs <;> first | rfl | exact hcf
    | fulfilled rows =>
      cases og with
      | rejected rg =>
        simp only []
        split_ifs <;>
          first
            | rfl
            | exact hcf
            | (rw [examSectionFg_frame _ _ _ _ _ hr he]; exact hcf)
      | fulfilled g =>
        simp only []
        split_ifs <;>
          first
            | rfl
            | exact hcf
            | (rw [examSectionFg_frame _ _ _ _ _ hr he]; exact hcf)
            | (rw [examSectionFg_frame _ _ _ _ _ hr he,
                   checkLow_frame _ _ _ _ _ hl]; exact hcf)

/-! ### Scheduled-refresh entry point lemmas -/

theorem sendBg_frame_key (o : Outcomes) (clk : Clock) (s2 : Store) (k : String)
    (hk : k = "last_midnight_refresh" ∨ k = "last_afternoon_refresh" ∨
      k = "nimora_rollno" ∨ k = "nimora_auth") :
    ((sendBackgroundNotifications o clk s2).1).get k = s2.get k := by
  rcases hk with h | h | h | h <;> subst h <;>
    exact sendBg_frame _ _ _ _ (by decide) (by decide) (by decide)

theorem fgBlock_frame_cred (o : Outcomes) (clk : Clock) (s2 : Store)
    (cr2 : String × String) (k : String)
    (hsec : secureStorage.getCredentials s2 = some cr2)
    (hl : k ≠ lowAttendanceMarkerKey) (hr : k ≠ examReminderMarkerKey)
    (he : k.data.take 18 ≠ "exam_notification_".data) :
    ((foregroundNotificationBlock o clk s2).1).get k = s2.get k := by
  have hg := getStoredCredentialsM_of_secure s2 cr2 hsec
  unfold foregroundNotificationBlock
  rw [hg]
  rcases o with ⟨oa, oe, og, oi, oc⟩
  rcases cr2 with ⟨r, p⟩
  cases oa with
  | rejected ra =>
    simp only []
    split_ifs <;> rfl
  | fulfilled rows =>
    cases og with
    | rejected rg =>
      simp only []
      split_ifs <;>
        first
          | rfl
          | (rw [examSectionFg_frame _ _ _ _ _ hr he]; done)
    | fulfilled g =>
      simp only []
      split_ifs <;>
        first
          | rfl
          | (rw [examSectionFg_frame _ _ _ _ _ hr he]; done)
          | (rw [examSectionFg_frame _ _ _ _ _ hr he,
                 checkLow_frame _ _ _ _ _ hl]; done)

theorem fgBlock_frame_cred_key (o : Outcomes) (clk : Clock) (s2 : Store)
    (cr2 : String × String) (k : String)
    (hsec : secureStorage.getCredentials s2 = some cr2)
    (hk : k = "last_midnight_refresh" ∨ k = "last_afternoon_refresh" ∨
      k = "nimora_rollno" ∨ k = "nimora_auth") :
    ((foregroundNotificationBlock o clk s2).1).get k = s2.get k := by
  rcases hk with h | h | h | h <;> subst h <;>
    exact fgBlock_frame_cred _ _ _ _ _ hsec (by decide) (by decide) (by decide)

theorem cacheSettled_frame_key (o : Outcomes) (now : Int) (s : Store) (k : String)
    (hk : k = "last_midnight_refresh" ∨ k = "last_afternoon_refresh" ∨
      k = "nimora_rollno" ∨ k = "nimora_auth") :
    (cacheSettled o now s).get k = s.get k := by
  rcases hk with h | h | h | h <;> subst h <;>
    exact cacheSettled_frame _ _ _ _ (by decide) (by decide) (by decide) (by decide)
      (by decide) (by decide)

theorem markerKey_cases (sd : Sched) :
    markerKey sd = "last_midnight_refresh" ∨ markerKey sd = "last_afternoon_refresh" := by
  cases sd
  · exact Or.inl rfl
  · exact Or.inr rfl

theorem bgTask_skip (clk : Clock) (o : Outcomes) (s : Store)
    (hroll : jsTruthyVal (s.get "nimora_rollno") = true)
    (hmark : hasRefreshedToday (schedOfHour clk.hour) clk.todayStr s = true) :
    backgroundRefreshTask clk o s = { store := s, notifs := [], ran := false } := by
  unfold backgroundRefreshTask
  rw [if_neg (not_not_intro hroll)]
  by_cases hst : isScheduledTime clk.hour clk.minute = true
  · rw [if_neg (not_not_intro hst)]
    simp only []
    rw [show (if clk.hour == 0 then Sched.midnight else Sched.afternoon) =
      schedOfHour clk.hour from rfl]
    rw [if_pos hmark]
  · rw [if_pos hst]

theorem fgTask_skip (clk : Clock) (o : Outcomes) (s : Store)
    (hlog : isLoggedIn s = true)
    (hmark : hasRefreshedToday (schedOfHour clk.hour) clk.todayStr s = true) :
    performScheduledRefresh clk o s = { store := s, notifs := [], ran := false } := by
  unfold performScheduledRefresh
  rw [if_neg (not_not_intro hlog)]
  by_cases h0 : (clk.hour == 0) = true
  · have hm : hasRefreshedToday Sched.midnight clk.todayStr s = true := by
      simpa [schedOfHour, h0] using hmark
    simp [h0, hm]
  · by_cases h17 : (clk.hour == 17) = true
    · have hm : hasRefreshedToday Sched.afternoon clk.todayStr s = true := by
        simpa [schedOfHour, h0, h17] using hmark
      simp [h0, h17, hm]
    · simp [h0, h17]

theorem isLoggedIn_of_cred (s : Store) (cr : String × String)
    (h : secureStorage.getCredentials s = some cr) : isLoggedIn s = true := by
  unfold isLoggedIn
  rw [h]
  rfl

theorem bgTask_run (clk : Clock) (o : Outcomes) (s : Store) (cr : String × String)
    (hcred : secureStorage.getCredentials s = some cr)
    (hst : isScheduledTime clk.hour clk.minute = true)
    (hmark : hasRefreshedToday (schedOfHour clk.hour) clk.todayStr s = false) :
    (backgroundRefreshTask clk o s).ran = true ∧
    secureStorage.getCredentials (backgroundRefreshTask clk o s).store = some cr ∧
    hasRefreshedToday (schedOfHour clk.hour) clk.todayStr
      (backgroundRefreshTask clk o s).store = true := by
  obtain ⟨hroll, hauth⟩ := getCredentials_truthy s cr hcred
  have hfetch := fetchAndCacheAllData_ok none o clk.epochMs s cr hcred
  have hres : backgroundRefreshTask clk o s =
      { store := (sendBackgroundNotifications o clk
          (markRefreshCompleted (schedOfHour clk.hour) clk.todayStr
            (cacheSettled o clk.epochMs s))).1,
        notifs := (sendBackgroundNotifications o clk
          (markRefreshCompleted (schedOfHour clk.hour) clk.todayStr
            (cacheSettled o clk.epochMs s))).2,
        ran := true } := by
    unfold backgroundRefreshTask
    rw [if_neg (not_not_intro hroll), if_neg (not_not_intro hst)]
    simp only []
    rw [show (if clk.hour == 0 then Sched.midnight else Sched.afternoon) =
      schedOfHour clk.hour from rfl]
    rw [if_neg (by simp [hmark]), hfetch]
  have hgr : ((sendBackgroundNotifications o clk
      (markRefreshCompleted (schedOfHour clk.hour) clk.todayStr
        (cacheSettled o clk.epochMs s))).1).get "nimora_rollno" =
      s.get "nimora_rollno" := by
    rw [sendBg_frame_key _ _ _ _ (Or.inr (Or.inr (Or.inl rfl)))]
    unfold markRefreshCompleted
    rw [Store.get_set,
      if_neg (by rcases markerKey_cases (schedOfHour clk.hour) with h | h <;>
        rw [h] <;> decide)]
    exact cacheSettled_frame_key _ _ _ _ (Or.inr (Or.inr (Or.inl rfl)))
  have hga : ((sendBackgroundNotifications o clk
      (markRefreshCompleted (schedOfHour clk.hour) clk.todayStr
        (cacheSettled o clk.epochMs s))).1).get "nimora_auth" =
      s.get "nimora_auth" := by
    rw [sendBg_frame_key _ _ _ _ (Or.inr (Or.inr (Or.inr rfl)))]
    unfold markRefreshCompleted
    rw [Store.get_set,
      if_neg (by rcases markerKey_cases (schedOfHour clk.hour) with h | h <;>
        rw [h] <;> decide)]
    exact cacheSettled_frame_key _ _ _ _ (Or.inr (Or.inr (Or.inr rfl)))
  have hmk : ((sendBackgroundNotifications o clk
      (markRefreshCompleted (schedOfHour clk.hour) clk.todayStr
        (cacheSettled o clk.epochMs s))).1).get (markerKey (schedOfHour clk.hour)) =
      some (StoredVal.str clk.todayStr) := by
    rw [sendBg_frame_key _ _ _ _
      (by rcases markerKey_cases (schedOfHour clk.hour) with h | h <;> rw [h] <;>
        simp)]
    unfold markRefreshCompleted
    rw [Store.get_set, if_pos rfl]
  rw [hres]
  refine ⟨rfl, ?_, ?_⟩
  · show secureStorage.getCredentials
      ((sendBackgroundNotifications o clk
        (markRefreshCompleted (schedOfHour clk.hour) clk.todayStr
          (cacheSettled o clk.epochMs s))).1) = some cr
    rw [getCredentials_congr s _ hgr hga]
    exact hcred
  · show hasRefreshedToday (schedOfHour clk.hour) clk.todayStr
      ((sendBackgroundNotifications o clk
        (markRefreshCompleted (schedOfHour clk.hour) clk.todayStr
          (cacheSettled o clk.epochMs s))).1) = true
    unfold hasRefreshedToday Store.getStr
    rw [hmk]
    simp

theorem fgTask_run (clk : Clock) (o : Outcomes) (s : Store) (cr : String × String)
    (hcred : secureStorage.getCredentials s = some cr)
    (hhour : clk.hour = 0 ∨ clk.hour = 17)
    (hmark : hasRefreshedToday (schedOfHour clk.hour) clk.todayStr s = false) :
    (performScheduledRefresh clk o s).ran = true ∧
    secureStorage.getCredentials (performScheduledRefresh clk o s).store = some cr ∧
    hasRefreshedToday (schedOfHour clk.hour) clk.todayStr
      (performScheduledRefresh clk o s).store = true := by
  have hlog := isLoggedIn_of_cred s cr hcred
  have hfetch := fetchAndCacheAllData_ok none o clk.epochMs s cr hcred
  have hres : performScheduledRefresh clk o s =
      { store := (foregroundNotificationBlock o clk
          (markRefreshCompleted (schedOfHour clk.hour) clk.todayStr
            (cacheSettled o clk.epochMs s))).1,
        notifs := (foregroundNotificationBlock o clk
          (markRefreshCompleted (schedOfHour clk.hour) clk.todayStr
            (cacheSettled o clk.epochMs s))).2,
        ran := true } := by
    unfold performScheduledRefresh
    rw [if_neg (not_not_intro hlog)]
    rcases hhour with h0 | h17
    · rw [show (if clk.hour == 0 then some Sched.midnight
          else if clk.hour == 17 then some Sched.afternoon else none) =
          some (schedOfHour clk.hour) by simp [h0, schedOfHour]]
      simp only []
      rw [if_neg (by simp [hmark]), hfetch]
    · rw [show (if clk.hour == 0 then some Sched.midnight
          else if clk.hour == 17 then some Sched.afternoon else none) =
          some (schedOfHour clk.hour) by simp [h17, schedOfHour]]
      simp only []
      rw [if_neg (by simp [hmark]), hfetch]
  have h2r : (markRefreshCompleted (schedOfHour clk.hour) clk.todayStr
      (cacheSettled o clk.epochMs s)).get "nimora_rollno" =
      s.get "nimora_rollno" := by
    unfold markRefreshCompleted
    rw [Store.get_set,
      if_neg (by rcases markerKey_cases (schedOfHour clk.hour) with h | h <;>
        rw [h] <;> decide)]
    exact cacheSettled_frame_key _ _ _ _ (Or.inr (Or.inr (Or.inl rfl)))
  have h2a : (markRefreshCompleted (schedOfHour clk.hour) clk.todayStr
      (cacheSettled o clk.epochMs s)).get "nimora_auth" =
      s.get "nimora_auth" := by
    unfold markRefreshCompleted
    rw [Store.get_set,
      if_neg (by rcases markerKey_cases (schedOfHour clk.hour) with h | h <;>
        rw [h] <;> decide)]
    exact cacheSettled_frame_key _ _ _ _ (Or.inr (Or.inr (Or.inr rfl)))
  have hsec2 : secureStorage.getCredentials
      (markRefreshCompleted (schedOfHour clk.hour) clk.todayStr
        (cacheSettled o clk.epochMs s)) = some cr := by
    rw [getCredentials_congr s _ h2r h2a]
    exact hcred
  have hgr : ((foregroundNotificationBlock o clk
      (markRefreshCompleted (schedOfHour clk.hour) clk.todayStr
        (cacheSettled o clk.epochMs s))).1).get "nimora_rollno" =
      s.get "nimora_rollno" := by
    rw [fgBlock_frame_cred_key _ _ _ _ _ hsec2 (Or.inr (Or.inr (Or.inl rfl)))]
    exact h2r
  have hga : ((foregroundNotificationBlock o clk
      (markRefreshCompleted (schedOfHour clk.hour) clk.todayStr
        (cacheSettled o clk.epochMs s))).1).get "nimora_auth" =
      s.get "nimora_auth" := by
    rw [fgBlock_frame_cred_key _ _ _ _ _ hsec2 (Or.inr (Or.inr (Or.inr rfl)))]
    exact h2a
  have hmk : ((foregroundNotificationBlock o clk
      (markRefreshCompleted (schedOfHour clk.hour) clk.todayStr
        (cacheSettled o clk.epochMs s))).1).get (markerKey (schedOfHour clk.hour)) =
      some (StoredVal.str clk.todayStr) := by
    rw [fgBlock_frame_cred_key _ _ _ _ _ hsec2
      (by rcases markerKey_cases (schedOfHour clk.hour) with h | h <;> rw [h] <;>
        simp)]
    unfold markRefreshCompleted
    rw [Store.get_set, if_pos rfl]
  rw [hres]
  refine ⟨rfl, ?_, ?_⟩
  · show secureStorage.getCredentials
      ((foregroundNotificationBlock o clk
        (markRefreshCompleted (schedOfHour clk.hour) clk.todayStr
          (cacheSettled o clk.epochMs s))).1) = some cr
    rw [getCredentials_congr s _ hgr hga]
    exact hcred
  · show hasRefreshedToday (schedOfHour clk.hour) clk.todayStr
      ((foregroundNotificationBlock o clk
        (markRefreshCompleted (schedOfHour clk.hour) clk.todayStr
          (cacheSettled o clk.epochMs s))).1) = true
    unfold hasRefreshedToday Store.getStr
    rw [hmk]
    simp

theorem runCalls_zero (calls : List (Caller × Clock × Outcomes)) (s : Store)
    (cr : String × String) (hour : Nat) (today : String)
    (hcalls : ∀ c ∈ calls, (c.2.1).hour = hour ∧ (c.2.1).todayStr = today)
    (hcred : secureStorage.getCredentials s = some cr)
    (hmark : hasRefreshedToday (schedOfHour hour) today s = true) :
    runCalls calls s = (s, 0) := by
  induction calls with
  | nil => rfl
  | cons c rest ih =>
    obtain ⟨caller, clk, o⟩ := c
    obtain ⟨hch, hct⟩ := hcalls _ (List.mem_cons_self _ _)
    have hmark' : hasRefreshedToday (schedOfHour clk.hour) clk.todayStr s = true := by
      rw [hch, hct]
      exact hmark
    have hskip : invokeRefresh (caller, clk, o) s =
        { store := s, notifs := [], ran := false } := by
      cases caller
      · exact bgTask_skip clk o s (getCredentials_truthy s cr hcred).1 hmark'
      · exact fgTask_skip clk o s (isLoggedIn_of_cred s cr hcred) hmark'
    unfold runCalls
    rw [hskip]
    simp only []
    rw [ih (fun c hc => hcalls c (List.mem_cons_of_mem _ hc))]
    simp

theorem JsNumber.ltNat_iff (d : JsNumber) (n : Nat) :
    d.ltNat n = true ↔ d.toRat < n := by
  unfold JsNumber.ltNat JsNumber.toRat
  rw [decide_eq_true_eq]
  rw [div_lt_iff₀ (by positivity)]
  constructor <;> intro h <;> exact_mod_cast h

theorem handleAppUpdate_no_validation (s : Store) (now : Int) (o : Outcomes) :
    RemoteEffect.sessionValidation ∉ (handleAppUpdate s now o).2 := by
  unfold handleAppUpdate
  simp only []
  split_ifs <;> try simp
  rcases getStoredCredentialsM s with ⟨copt, s1⟩
  cases copt with
  | none => simp
  | some c =>
    rcases c with ⟨r, p⟩
    simp only []
    cases fetchAndCacheAllData (some (r, p)) o now (clearAllCache s1) <;>
      simp [gatewayCallSet]

/-! ### Claims -/

/-- Claim C2 counterexample: at 00:10, inside the claimed 30-minute
midnight window, the background task's predicate accepts but the
foreground poll's predicate rejects, so the 30-minute tolerance does
not apply in both triggering contexts as the claim states. -/
theorem claim_C2_counterexample :
    backgroundWindow 0 10 = Window.midnight ∧ (10 ≤ 30) ∧
    isScheduledRefreshTime 0 10 = false := by
  decide

/-- Claim C2 (amended): the OS background task classifies Midnight
exactly when hour = 0 and minute at most 30, Afternoon exactly when
hour = 17 and minute at most 30, and None otherwise; the foreground
poll instead applies a 5-minute tolerance, triggering exactly when the
hour is 0 or 17 and the minute is at most 5. -/
theorem claim_C2_amended (hour minute : Nat) :
    (backgroundWindow hour minute = Window.midnight ↔ hour = 0 ∧ minute ≤ 30) ∧
    (backgroundWindow hour minute = Window.afternoon ↔ hour = 17 ∧ minute ≤ 30) ∧
    (backgroundWindow hour minute = Window.noWindow ↔
      ¬ ((hour = 0 ∨ hour = 17) ∧ minute ≤ 30)) ∧
    (isScheduledRefreshTime hour minute = true ↔
      (hour = 0 ∨ hour = 17) ∧ minute ≤ 5) := by
  unfold backgroundWindow isScheduledTime isScheduledRefreshTime
  simp only [Bool.or_eq_true, Bool.and_eq_true, beq_iff_eq, decide_eq_true_eq]
  split_ifs with h1 h2 <;> simp_all <;> omega

/-- Claim C4: fetchAndCacheAllData raises exactly when no credentials
resolve before any gateway call is issued; with credentials available
every combination of gateway-call outcomes, including all five
failing, returns normally. -/
theorem claim_C4 (args : Option (String × String)) (o : Outcomes) (now : Int)
    (s : Store) :
    (∃ e, fetchAndCacheAllData args o now s = Except.error e) ↔
      fetchCredentials args s = none := by
  cases hc : fetchCredentials args s <;> simp [fetchAndCacheAllData, hc]

/-- Claim C5: setting a cache kind and reading it immediately returns
the payload just written, and a physically stored entry whose age has
reached 24 hours reads back as a miss, exactly like an absent
entry. -/
theorem claim_C5 :
    (∀ (k : Kind) (p : Payload) (now : Int) (s : Store),
      dataCache.get k now (dataCache.set k p now s) = some p) ∧
    (∀ (k : Kind) (now ts : Int) (p : Payload) (s : Store),
      s.get (cacheKey k) = some (StoredVal.entry p ts) →
      86400000 ≤ now - ts →
      dataCache.get k now s = none) ∧
    (∀ (k : Kind) (now : Int) (s : Store),
      dataCache.get k now s = none ↔
        ¬ ∃ p ts, s.get (cacheKey k) = some (StoredVal.entry p ts) ∧
          now - ts < 86400000) := by
  refine ⟨dataCache.get_set_self, ?_, ?_⟩
  · intro k now ts p s hget hexp
    unfold dataCache.get
    rw [hget]
    show (if now - ts < 24 * 60 * 60 * 1000 then some p else none) = none
    rw [if_neg (by omega)]
  · intro k now s
    unfold dataCache.get
    cases hg : s.get (cacheKey k) with
    | none => simp
    | some v =>
      cases v with
      | str t => simp
      | entry p ts =>
        show (if now - ts < 24 * 60 * 60 * 1000 then some p else none) = none ↔ _
        split_ifs with h
        · simp only [reduceCtorEq, false_iff, not_not]
          exact ⟨p, ts, rfl, by omega⟩
        · simp only [true_iff]
          rintro ⟨p', ts', he, hlt⟩
          cases he
          omega

/-- Witness for claim C5: a concrete round trip, and a concrete entry
that is still stored but 100000000 milliseconds old and reads back as
a miss. -/
theorem claim_C5_witness :
    dataCache.get Kind.attendance 5
      (dataCache.set Kind.attendance (Payload.text "x") 5 []) =
      some (Payload.text "x") ∧
    (Store.get [("nimora_attendance_data", StoredVal.entry (Payload.text "x") 0)]
        (cacheKey Kind.attendance) =
      some (StoredVal.entry (Payload.text "x") 0)) ∧
    dataCache.get Kind.attendance 100000000
      [("nimora_attendance_data", StoredVal.entry (Payload.text "x") 0)] = none :=
  ⟨claim_C5.1 Kind.attendance (Payload.text "x") 5 [], by decide,
   claim_C5.2.1 Kind.attendance 100000000 0 (Payload.text "x")
     [("nimora_attendance_data", StoredVal.entry (Payload.text "x") 0)]
     (by decide) (by decide)⟩

/-- Claim C8: each notification category checks its own preference
flag before evaluating anything else; a disabled category returns with
the store untouched and no notification requested, whatever the
input. -/
theorem claim_C8 :
    (∀ (data : List Course) (u todayStr : String) (s : Store),
      s.getStr "notifications_enabled" = some "false" →
      checkAndSendLowAttendanceNotifications data u todayStr s = (s, [])) ∧
    (∀ (examData : List Exam) (u : String) (clk : Clock) (s : Store),
      s.getStr "exam_notifications_enabled" = some "false" →
      checkAndSendExamNotifications examData u clk s = (s, [])) := by
  constructor
  · intro data u t s h
    unfold checkAndSendLowAttendanceNotifications
    rw [if_pos h]
  · intro examData u clk s h
    unfold checkAndSendExamNotifications
    rw [if_pos h]

/-- Witness for claim C8: with both preference flags stored as false,
both passes leave the store unchanged and send nothing even on
qualifying input. -/
theorem claim_C8_witness :
    checkAndSendLowAttendanceNotifications [Course.mk "CS101" "10"] "Alice" "D1"
      [("notifications_enabled", StoredVal.str "false"),
       ("exam_notifications_enabled", StoredVal.str "false")] =
      ([("notifications_enabled", StoredVal.str "false"),
        ("exam_notifications_enabled", StoredVal.str "false")], []) ∧
    checkAndSendExamNotifications [Exam.mk "CS101" "11-10-26" "9 AM"] "Alice"
      { hour := 0, minute := 5, todayStr := "D1",
        today := { year := 2026, month := 9, day := 11 },
        tomorrow := { year := 2026, month := 9, day := 12 }, epochMs := 1000 }
      [("notifications_enabled", StoredVal.str "false"),
       ("exam_notifications_enabled", StoredVal.str "false")] =
      ([("notifications_enabled", StoredVal.str "false"),
        ("exam_notifications_enabled", StoredVal.str "false")], []) :=
  ⟨claim_C8.1 _ _ _ _ (by decide), claim_C8.2 _ _ _ _ (by decide)⟩

/-- Claim C3: with credentials available, fetchAndCacheAllData settles
all five gateway calls independently: it returns normally for every
combination of outcomes, writes each fulfilled payload to the cache
under its kind, leaves the cache key of each rejected call untouched;
in particular when the attendance call fails, the exam-schedule call
succeeds and no attendance entry existed before, the cache afterwards
holds the exam schedule and still no attendance data. -/
theorem claim_C3 (args : Option (String × String)) (o : Outcomes) (now : Int)
    (s : Store) (cr : String × String)
    (hcred : fetchCredentials args s = some cr) :
    ∃ s', fetchAndCacheAllData args o now s = Except.ok s' ∧
      (∀ (kd : Kind) (p : Payload), o.payloadAt kd = Outcome.fulfilled p →
        dataCache.get kd now s' = some p) ∧
      (∀ (kd : Kind) (r : String), o.payloadAt kd = Outcome.rejected r →
        s'.get (cacheKey kd) = s.get (cacheKey kd)) ∧
      (∀ (r : String) (es : List Exam), o.attendance = Outcome.rejected r →
        o.examSchedule = Outcome.fulfilled es →
        s.get (cacheKey Kind.attendance) = none →
        dataCache.get Kind.examSchedule now s' = some (Payload.examList es) ∧
        dataCache.get Kind.attendance now s' = none) := by
  refine ⟨cacheSettled o now s, fetchAndCacheAllData_ok args o now s cr hcred,
    ?_, ?_, ?_⟩
  · intro kd p hp
    unfold dataCache.get
    rw [cacheSettled_get, hp]
    simp
  · intro kd r hr
    rw [cacheSettled_get, hr]
  · intro r es har hes habs
    constructor
    · unfold dataCache.get
      rw [cacheSettled_get]
      rw [show o.payloadAt Kind.examSchedule =
        Outcome.fulfilled (Payload.examList es) by
          unfold Outcomes.payloadAt
          rw [hes]]
      simp
    · unfold dataCache.get
      rw [cacheSettled_get]
      rw [show o.payloadAt Kind.attendance = Outcome.rejected r by
        unfold Outcomes.payloadAt
        rw [har]]
      rw [habs]

/-- Witness for claim C3: with stored credentials, a rejected
attendance call and a fulfilled exam-schedule call, the refresh
returns normally, the cache holds the exam schedule and has no
attendance data. -/
theorem claim_C3_witness :
    ∃ s', fetchAndCacheAllData none
        { attendance := Outcome.rejected "network",
          examSchedule := Outcome.fulfilled [Exam.mk "CS101" "11-10-26" "9 AM"],
          greeting := Outcome.fulfilled "Good Morning, Alice!",
          internals := Outcome.rejected "network",
          cgpa := Outcome.rejected "network" } 1000
        [("nimora_rollno", StoredVal.str "R1"),
         ("nimora_auth", StoredVal.str "aGVsbG8=")] = Except.ok s' ∧
      dataCache.get Kind.examSchedule 1000 s' =
        some (Payload.examList [Exam.mk "CS101" "11-10-26" "9 AM"]) ∧
      dataCache.get Kind.attendance 1000 s' = none := by
  obtain ⟨s', hok, hful, hrej, hpart⟩ :=
    claim_C3 none
      { attendance := Outcome.rejected "network",
        examSchedule := Outcome.fulfilled [Exam.mk "CS101" "11-10-26" "9 AM"],
        greeting := Outcome.fulfilled "Good Morning, Alice!",
        internals := Outcome.rejected "network",
        cgpa := Outcome.rejected "network" } 1000
      [("nimora_rollno", StoredVal.str "R1"),
       ("nimora_auth", StoredVal.str "aGVsbG8=")] ("R1", "hello") (by decide)
  obtain ⟨h1, h2⟩ :=
    hpart "network" [Exam.mk "CS101" "11-10-26" "9 AM"] rfl rfl (by decide)
  exact ⟨s', hok, h1, h2⟩

/-- Claim C6: a course qualifies for a low-attendance alert exactly
when it is in the payload and its percentage parses to a number below
80; and the dedup is day-coarse: once one pass has sent any alert,
every further pass with the same calendar date sends nothing, whatever
data the later refresh discovered. -/
theorem claim_C6 :
    (∀ (data : List Course) (c : Course),
      c ∈ lowAttendanceCourses data ↔
        c ∈ data ∧ ∃ q, jsParseFloat c.percentage = some q ∧ q.toRat < 80) ∧
    (∀ (data1 : List Course) (u1 : String) (data2 : List Course) (u2 : String)
        (todayStr : String) (s : Store),
      (checkAndSendLowAttendanceNotifications data1 u1 todayStr s).2 ≠ [] →
      (checkAndSendLowAttendanceNotifications data2 u2 todayStr
        (checkAndSendLowAttendanceNotifications data1 u1 todayStr s).1).2 = []) := by
  constructor
  · intro data c
    unfold lowAttendanceCourses
    rw [List.mem_filter]
    constructor
    · rintro ⟨hc, hp⟩
      refine ⟨hc, ?_⟩
      unfold lowAttendanceFilterPred at hp
      split_ifs at hp with h0
      cases hq : jsParseFloat c.percentage with
      | none =>
        rw [hq] at hp
        cases hp
      | some q =>
        rw [hq] at hp
        exact ⟨q, rfl, (JsNumber.ltNat_iff q 80).mp hp⟩
    · rintro ⟨hc, q, hq, hlt⟩
      refine ⟨hc, ?_⟩
      unfold lowAttendanceFilterPred
      split_ifs with h0
      · rw [h0] at hq
        simp [jsParseFloat] at hq
      · rw [hq]
        exact (JsNumber.ltNat_iff q 80).mpr hlt
  · intro data1 u1 data2 u2 todayStr s h1
    exact checkLow_of_marker _ _ _ _ (checkLow_sent _ _ _ _ h1)

/-- Witness for claim C6: a qualifying course makes the first pass
send, and a second pass the same day with a different qualifying
course sends nothing. -/
theorem claim_C6_witness :
    (checkAndSendLowAttendanceNotifications [Course.mk "CS101" "75"] "Alice" "D1"
      []).2 ≠ [] ∧
    (checkAndSendLowAttendanceNotifications [Course.mk "MA102" "60"] "Alice" "D1"
      (checkAndSendLowAttendanceNotifications [Course.mk "CS101" "75"] "Alice" "D1"
        []).1).2 = [] :=
  ⟨by decide, claim_C6.2 _ _ _ _ _ _ (by decide)⟩

/-- Claim C10: the low-attendance day marker is written only when at
least one alert was actually sent: a pass that sends nothing leaves
the store unchanged, so a qualifying course discovered by a later
refresh on the same calendar day still triggers an alert that day. -/
theorem claim_C10 (data1 : List Course) (u1 : String) (data2 : List Course)
    (u2 : String) (todayStr : String) (s : Store)
    (h1 : (checkAndSendLowAttendanceNotifications data1 u1 todayStr s).2 = [])
    (hen : s.getStr "notifications_enabled" ≠ some "false")
    (hd : data2 ≠ []) (hu : jsTrim u2.data ≠ [])
    (hq : lowAttendanceCourses data2 ≠ [])
    (hm : s.getStr lowAttendanceMarkerKey ≠ some todayStr) :
    (checkAndSendLowAttendanceNotifications data1 u1 todayStr s).1 = s ∧
    (checkAndSendLowAttendanceNotifications data2 u2 todayStr
      (checkAndSendLowAttendanceNotifications data1 u1 todayStr s).1).2 ≠ [] := by
  have hst := checkLow_noSend data1 u1 todayStr s h1
  refine ⟨hst, ?_⟩
  rw [hst]
  exact checkLow_sends data2 u2 todayStr s hen hd hu hq hm

/-- Witness for claim C10: a first pass with no qualifying course
leaves the store unchanged, and a second pass the same day with a
qualifying course still sends. -/
theorem claim_C10_witness :
    (checkAndSendLowAttendanceNotifications [Course.mk "CS101" "90"] "Alice" "D1"
      []).1 = [] ∧
    (checkAndSendLowAttendanceNotifications [Course.mk "MA102" "60"] "Alice" "D1"
      (checkAndSendLowAttendanceNotifications [Course.mk "CS101" "90"] "Alice" "D1"
        []).1).2 ≠ [] :=
  claim_C10 [Course.mk "CS101" "90"] "Alice" [Course.mk "MA102" "60"] "Alice" "D1"
    [] (by decide) (by decide) (by decide) (by decide) (by decide) (by decide)

/-- Claim C9: with no stored roll number, initializeSession reaches
the unauthenticated, non-loading state with the store untouched and no
remote interaction; and on every input the initialization issues no
credential validation against the remote service — it checks presence
only. -/
theorem claim_C9 :
    (∀ (s : Store) (now : Int) (o : Outcomes),
      jsTruthyVal (s.get "nimora_rollno") = false →
      initializeSession s now o =
        { state := { isAuthenticated := false, isLoading := false },
          store := s, remoteCalls := [] }) ∧
    (∀ (s : Store) (now : Int) (o : Outcomes),
      RemoteEffect.sessionValidation ∉ (initializeSession s now o).remoteCalls) := by
  constructor
  · intro s now o h
    unfold initializeSession
    rw [if_pos (by simp [h])]
  · intro s now o
    unfold initializeSession
    split_ifs
    · simpa using handleAppUpdate_no_validation s now o
    · simp

/-- Witness for claim C9: on an empty store the session bootstrap
reaches the unauthenticated state with no remote call. -/
theorem claim_C9_witness :
    initializeSession [] 0
      { attendance := Outcome.rejected "network",
        examSchedule := Outcome.rejected "network",
        greeting := Outcome.rejected "network",
        internals := Outcome.rejected "network",
        cgpa := Outcome.rejected "network" } =
      { state := { isAuthenticated := false, isLoading := false },
        store := [], remoteCalls := [] } :=
  claim_C9.1 [] 0 _ rfl

/-- Claim C7: exam-day alerts are deduplicated per exam: two exams
with distinct per-exam keys, both dated today and not yet marked, each
produce exactly one notification in one pass, and re-running the pass
after both markers are written produces no further notification. -/
theorem claim_C7 (e1 e2 : Exam) (userName : String) (clk : Clock) (s : Store)
    (hen : s.getStr "exam_notifications_enabled" ≠ some "false")
    (hu : jsTrim userName.data ≠ [])
    (hv1 : validExamFilter e1 = true) (hv2 : validExamFilter e2 = true)
    (hd1 : parseExamDate e1.date = some clk.today)
    (hd2 : parseExamDate e2.date = some clk.today)
    (hnt : clk.today ≠ clk.tomorrow)
    (hk : examKeyStr e1.courseCode e1.date ≠ examKeyStr e2.courseCode e2.date)
    (hs1 : jsTruthyVal (s.get (examKeyStr e1.courseCode e1.date)) = false)
    (hs2 : jsTruthyVal (s.get (examKeyStr e2.courseCode e2.date)) = false) :
    (checkAndSendExamNotifications [e1, e2] userName clk s).2 =
      [Notif.examDay userName e1.courseCode e1.time,
       Notif.examDay userName e2.courseCode e2.time] ∧
    (checkAndSendExamNotifications [e1, e2] userName clk
      (checkAndSendExamNotifications [e1, e2] userName clk s).1).2 = [] := by
  set k1 := examKeyStr e1.courseCode e1.date with hk1def
  set k2 := examKeyStr e2.courseCode e2.date with hk2def
  have hne21 : ¬(k2 = k1) := fun h => hk h.symm
  have ht1 : ¬(parseExamDate e1.date = some clk.tomorrow) := by
    rw [hd1]
    simpa using hnt
  have ht2 : ¬(parseExamDate e2.date = some clk.tomorrow) := by
    rw [hd2]
    simpa using hnt
  have hvalid : List.filter validExamFilter [e1, e2] = [e1, e2] := by
    simp [List.filter, hv1, hv2]
  have htom :
      List.filter (fun e => decide (parseExamDate e.date = some clk.tomorrow))
        [e1, e2] = [] := by
    simp [List.filter, ht1, ht2]
  have hloop1 : examDayLoop userName clk.today [e1, e2] s =
      ((s.set k1 (StoredVal.str "sent")).set k2 (StoredVal.str "sent"),
       [Notif.examDay userName e1.courseCode e1.time,
        Notif.examDay userName e2.courseCode e2.time]) := by
    simp [examDayLoop, hd1, hd2, hs1, hs2, Store.get_set, hne21]
  have hrun1 : checkAndSendExamNotifications [e1, e2] userName clk s =
      ((s.set k1 (StoredVal.str "sent")).set k2 (StoredVal.str "sent"),
       [Notif.examDay userName e1.courseCode e1.time,
        Notif.examDay userName e2.courseCode e2.time]) := by
    unfold checkAndSendExamNotifications
    rw [if_neg hen, if_neg (by simp), if_neg (by simpa using hu)]
    simp only []
    rw [hvalid, htom]
    simp [hloop1]
  have hloop2 : examDayLoop userName clk.today [e1, e2]
      ((s.set k1 (StoredVal.str "sent")).set k2 (StoredVal.str "sent")) =
      ((s.set k1 (StoredVal.str "sent")).set k2 (StoredVal.str "sent"), []) := by
    simp [examDayLoop, hd1, hd2, Store.get_set, hne21, hk, jsTruthyVal]
  have hen2 : ((s.set k1 (StoredVal.str "sent")).set k2
      (StoredVal.str "sent")).getStr "exam_notifications_enabled" ≠ some "false" := by
    rw [Store.getStr_set,
      if_neg (Ne.symm (examKeyStr_ne e2.courseCode e2.date _ (by decide))),
      Store.getStr_set,
      if_neg (Ne.symm (examKeyStr_ne e1.courseCode e1.date _ (by decide)))]
    exact hen
  refine ⟨by rw [hrun1], ?_⟩
  rw [hrun1]
  simp only []
  unfold checkAndSendExamNotifications
  rw [if_neg hen2, if_neg (by simp), if_neg (by simpa using hu)]
  simp only []
  rw [hvalid, htom]
  simp [hloop2]

/-- Witness for claim C7: two distinct exams dated today each produce
exactly one notification, and a re-run produces none. -/
theorem claim_C7_witness :
    (checkAndSendExamNotifications
      [Exam.mk "CS101" "11-10-26" "9 AM", Exam.mk "MA102" "11-10-26" "2 PM"]
      "Alice"
      { hour := 0, minute := 5, todayStr := "D1",
        today := { year := 2026, month := 9, day := 11 },
        tomorrow := { year := 2026, month := 9, day := 12 }, epochMs := 1000 }
      []).2 =
      [Notif.examDay "Alice" "CS101" "9 AM", Notif.examDay "Alice" "MA102" "2 PM"] ∧
    (checkAndSendExamNotifications
      [Exam.mk "CS101" "11-10-26" "9 AM", Exam.mk "MA102" "11-10-26" "2 PM"]
      "Alice"
      { hour := 0, minute := 5, todayStr := "D1",
        today := { year := 2026, month := 9, day := 11 },
        tomorrow := { year := 2026, month := 9, day := 12 }, epochMs := 1000 }
      (checkAndSendExamNotifications
        [Exam.mk "CS101" "11-10-26" "9 AM", Exam.mk "MA102" "11-10-26" "2 PM"]
        "Alice"
        { hour := 0, minute := 5, todayStr := "D1",
          today := { year := 2026, month := 9, day := 11 },
          tomorrow := { year := 2026, month := 9, day := 12 }, epochMs := 1000 }
        []).1).2 = [] :=
  claim_C7 (Exam.mk "CS101" "11-10-26" "9 AM") (Exam.mk "MA102" "11-10-26" "2 PM")
    "Alice"
    { hour := 0, minute := 5, todayStr := "D1",
      today := { year := 2026, month := 9, day := 11 },
      tomorrow := { year := 2026, month := 9, day := 12 }, epochMs := 1000 }
    [] (by decide) (by decide) (by decide) (by decide) (by decide) (by decide)
    (by decide) (by decide) (by decide) (by decide)

/-- Claim C1: for a fixed calendar date and a fixed refresh window,
any non-empty sequence of scheduled-refresh invocations — from the
OS background task or the foreground poll, in any order — executes the
refresh body fetchAndCacheAllData exactly once, because the
per-window daily marker is compared against today's date string and
written after the first completed run. -/
theorem claim_C1 (calls : List (Caller × Clock × Outcomes)) (s : Store)
    (hour : Nat) (today : String) (cr : String × String)
    (hne : calls ≠ [])
    (hcred : secureStorage.getCredentials s = some cr)
    (hwin : hour = 0 ∨ hour = 17)
    (hcalls : ∀ c ∈ calls, (c.2.1).hour = hour ∧ (c.2.1).todayStr = today ∧
      (c.1 = Caller.background → (c.2.1).minute ≤ 30))
    (hmark : hasRefreshedToday (schedOfHour hour) today s = false) :
    (runCalls calls s).2 = 1 := by
  cases calls with
  | nil => exact absurd rfl hne
  | cons c rest =>
    obtain ⟨caller, clk, o⟩ := c
    obtain ⟨hch, hct, hcm⟩ := hcalls _ (List.mem_cons_self _ _)
    dsimp only at hch hct hcm
    have hmark' : hasRefreshedToday (schedOfHour clk.hour) clk.todayStr s = false := by
      rw [hch, hct]
      exact hmark
    have hrun : (invokeRefresh (caller, clk, o) s).ran = true ∧
        secureStorage.getCredentials (invokeRefresh (caller, clk, o) s).store =
          some cr ∧
        hasRefreshedToday (schedOfHour hour) today
          (invokeRefresh (caller, clk, o) s).store = true := by
      cases caller with
      | background =>
        have hst : isScheduledTime clk.hour clk.minute = true := by
          rcases hwin with h | h <;>
            simp [isScheduledTime, hch, h, hcm rfl]
        have h := bgTask_run clk o s cr hcred hst hmark'
        rw [hch, hct] at h
        exact h
      | foreground =>
        have h := fgTask_run clk o s cr hcred (by rw [hch]; exact hwin) hmark'
        rw [hch, hct] at h
        exact h
    obtain ⟨hr1, hr2, hr3⟩ := hrun
    unfold runCalls
    simp only []
    rw [runCalls_zero rest _ cr hour today
      (fun c hc => ⟨(hcalls c (List.mem_cons_of_mem _ hc)).1,
        (hcalls c (List.mem_cons_of_mem _ hc)).2.1⟩) hr2 hr3]
    rw [hr1]
    simp

/-- Witness for claim C1: two invocations in the midnight window of
one day — one background, one foreground — over a store holding
credentials and no marker, execute the refresh body exactly once. -/
theorem claim_C1_witness :
    (runCalls
      [(Caller.background,
        { hour := 0, minute := 5, todayStr := "D1",
          today := { year := 2026, month := 9, day := 11 },
          tomorrow := { year := 2026, month := 9, day := 12 }, epochMs := 1000 },
        { attendance := Outcome.fulfilled [["CS101", "60", "10", "0", "50", "75", "75"]],
          examSchedule := Outcome.fulfilled [],
          greeting := Outcome.fulfilled "Good Morning, Alice!",
          internals := Outcome.rejected "network",
          cgpa := Outcome.rejected "network" }),
       (Caller.foreground,
        { hour := 0, minute := 40, todayStr := "D1",
          today := { year := 2026, month := 9, day := 11 },
          tomorrow := { year := 2026, month := 9, day := 12 }, epochMs := 2000 },
        { attendance := Outcome.fulfilled [["CS101", "60", "10", "0", "50", "75", "75"]],
          examSchedule := Outcome.fulfilled [],
          greeting := Outcome.fulfilled "Good Morning, Alice!",
          internals := Outcome.rejected "network",
          cgpa := Outcome.rejected "network" })]
      [("nimora_rollno", StoredVal.str "R1"),
       ("nimora_auth", StoredVal.str "aGVsbG8=")]).2 = 1 :=
  claim_C1 _ _ 0 "D1" ("R1", "hello") (by decide) (by decide) (Or.inl rfl)
    (by decide) (by decide)

end Skipp
